import Mathlib

/-
  Shallow embedding of src/browser/web-view.js.

  The WebView typed-immutable Record becomes a Lean structure whose field
  defaults mirror the Record declaration; merging a field with undefined in
  typed-immutable resets it to the declared default, which the embedding
  writes out explicitly.  Calls to the ambient clock performance.now() become
  explicit time parameters.  The zoom level is modelled as a rational.
-/

namespace Browser

/-- ViewState mirrors the WebView Record of web-view.js lines 25-75: each
field carries the default declared there (Maybe fields default to none,
Boolean fields to false, the three timestamps to -1, securityState to
the string insecure, zoom to 1). -/
structure ViewState where
  id : String
  userInput : String := ""
  zoom : ℚ := 1
  readyState : Option String := none
  isLoading : Bool := false
  isConnecting : Bool := false
  startLoadingTime : Int := -1
  connectedTime : Int := -1
  endLoadingTime : Int := -1
  isFocused : Bool := false
  isActive : Bool := false
  isSelected : Bool := false
  isPinned : Bool := false
  uri : Option String := none
  title : Option String := none
  icons : Option (List (String × String)) := none
  meta : Option String := none
  backgroundColor : Option String := none
  foregroundColor : Option String := none
  isDark : Bool := false
  securityState : String := "insecure"
  securityExtendedValidation : Bool := false
  canGoBack : Bool := false
  canGoForward : Bool := false
  contentOverflows : Bool := false
  thumbnail : Option String := none
deriving DecidableEq, Repr

/-- WebView.startLoad (web-view.js lines 141-153): merges readyState loading,
isLoading true, isConnecting true, startLoadingTime set from performance.now()
(the explicit now parameter here), and resets icons, thumbnail, title,
securityState, securityExtendedValidation, canGoBack, canGoForward to their
declared defaults (merging undefined in typed-immutable restores the default). -/
def startLoad (now : Int) (s : ViewState) : ViewState :=
  { s with
    readyState := some "loading"
    isLoading := true
    isConnecting := true
    startLoadingTime := now
    icons := none
    thumbnail := none
    title := none
    securityState := "insecure"
    securityExtendedValidation := false
    canGoBack := false
    canGoForward := false }

/-- WebView.endLoad (web-view.js lines 154-159): merges isConnecting false,
endLoadingTime from performance.now() (the explicit now parameter),
readyState loaded, isLoading false. -/
def endLoad (now : Int) (s : ViewState) : ViewState :=
  { s with
    isConnecting := false
    endLoadingTime := now
    readyState := some "loaded"
    isLoading := false }

/-- WebView.changeProgress (web-view.js lines 160-163): the curried first
argument (named connectedTime in the source) is bound but never used; when
isConnecting is false the state is returned unchanged, otherwise the merge
sets isConnecting false and connectedTime from performance.now(), which is
the explicit now parameter here. -/
def changeProgress (_arg : Int) (now : Int) (s : ViewState) : ViewState :=
  if !s.isConnecting then s
  else { s with isConnecting := false, connectedTime := now }

/-- ZOOM_MIN from web-view.js line 124. -/
def ZOOM_MIN : ℚ := 1 / 2

/-- ZOOM_MAX from web-view.js line 125. -/
def ZOOM_MAX : ℚ := 2

/-- ZOOM_STEP from web-view.js line 126. -/
def ZOOM_STEP : ℚ := 1 / 10

/-- The zoomIn value function of web-view.js line 128. -/
def zoomInVal (value : ℚ) : ℚ := min ZOOM_MAX (value + ZOOM_STEP)

/-- The zoomOut value function of web-view.js line 129. -/
def zoomOutVal (value : ℚ) : ℚ := max ZOOM_MIN (value - ZOOM_STEP)

/-- WebView.zoomIn (web-view.js line 132). -/
def zoomIn (s : ViewState) : ViewState := { s with zoom := zoomInVal s.zoom }

/-- WebView.zoomOut (web-view.js line 133). -/
def zoomOut (s : ViewState) : ViewState := { s with zoom := zoomOutVal s.zoom }

/-- WebView.zoomReset (web-view.js line 134): removing the zoom field of a
typed-immutable Record restores its declared default, Number(1). -/
def zoomReset (s : ViewState) : ViewState := { s with zoom := 1 }

/-- WebView.persistent (web-view.js lines 85-104): merges undefined into
every transient field, which in typed-immutable resets each to its declared
default, and leaves every other field unchanged. -/
def persistent (s : ViewState) : ViewState :=
  { s with
    thumbnail := none
    readyState := none
    isLoading := false
    isConnecting := false
    startLoadingTime := -1
    connectedTime := -1
    endLoadingTime := -1
    backgroundColor := none
    foregroundColor := none
    isDark := false
    title := none
    securityState := "insecure"
    securityExtendedValidation := false
    canGoBack := false
    canGoForward := false }

/-- A view with a given id and every other field at its declared default,
as WebView.open builds when called with no extra state. -/
def mkView (i : String) : ViewState := { id := i }

/-
  Promise model for the thumbnail acquisition protocol of web-view.js
  lines 248-291.  The event loop is single threaded, so a run of the
  protocol is determined by the settlement times of its primitive inputs:
  the mozbrowserlocationchange event, the mozbrowserloadend event, the
  persisted thumbnail lookup (fetchThumbnail) and the screenshot capture
  (fetchScreenshot).  A promise is either pending forever or settled at a
  time, resolved with a value or rejected.
-/

/-- The settlement of a promise: resolved with a value at a time, or
rejected at a time. -/
inductive Settled (α : Type) where
  | res : Nat → α → Settled α
  | rej : Nat → Settled α
deriving DecidableEq, Repr

/-- The time at which a settlement happens. -/
def Settled.time : Settled α → Nat
  | .res t _ => t
  | .rej t => t

/-- A promise in a run: none means it never settles. -/
abbrev SProm (α : Type) := Option (Settled α)

/-- Promise.race of two promises: the one that settles first wins; a
promise that never settles never wins. -/
def race : SProm α → SProm α → SProm α
  | none, q => q
  | some p, none => some p
  | some p, some q => if q.time < p.time then some q else some p

/-- A promise that rejects at the given time, if any; models the abort
promise built from the mozbrowserlocationchange event (lines 273-274). -/
def rejAt (α : Type) : Option Nat → SProm α
  | none => none
  | some t => some (.rej t)

/-- Adjusts a settlement so it is not earlier than the given time: a
callback attached at time t to a promise already settled earlier still
runs at t. -/
def delayTo (t : Nat) : SProm α → SProm α
  | none => none
  | some (.res u v) => some (.res (max t u) v)
  | some (.rej u) => some (.rej (max t u))

/-- Promise then: a rejection passes through; a resolution at time t runs
the callback, whose own promise (settling no earlier than t) becomes the
result. -/
def sthen (p : SProm α) (f : Nat → SProm β) : SProm β :=
  match p with
  | none => none
  | some (.rej t) => some (.rej t)
  | some (.res t _) => f t

/-- Promise catch: a resolution passes through; a rejection at time t runs
the handler, whose promise becomes the result. -/
def scatch (p : SProm α) (f : Nat → SProm α) : SProm α :=
  match p with
  | none => none
  | some (.res t v) => some (.res t v)
  | some (.rej t) => f t

/-- One run of the thumbnail acquisition protocol is fixed by: the time of
the next mozbrowserlocationchange event (none if it never fires), the time
of the next mozbrowserloadend event, the settlement of the persisted
thumbnail lookup (resolved with the cached image handle or rejected), and
the screenshot capture behaviour, given as its latency and its outcome
(some bytes if getScreenshot succeeds, none if it fails). -/
structure ThumbRun where
  tAbort : Option Nat
  tLoad : Option Nat
  cached : SProm String
  captureDelay : Nat
  captureOk : Option String
deriving DecidableEq, Repr

/-- The loaded promise of line 278: resolves when mozbrowserloadend fires. -/
def loadedP (r : ThumbRun) : SProm Unit := r.tLoad.map (fun t => .res t ())

/-- fetchScreenshot (lines 248-251) requested at time t: settles after the
capture latency, resolved or rejected according to the capture outcome. -/
def captureAt (r : ThumbRun) (t : Nat) : SProm String :=
  match r.captureOk with
  | some b => some (.res (t + r.captureDelay) b)
  | none => some (.rej (t + r.captureDelay))

/-- The fallback branch of lines 284-286: after the cached lookup fails at
time tf, race the abort promise against the loaded promise and, if loaded
wins, request a screenshot at that moment. -/
def fallbackP (r : ThumbRun) (tf : Nat) : SProm String :=
  sthen (delayTo tf (race (rejAt Unit r.tAbort) (loadedP r))) (fun t => captureAt r t)

/-- The thumbnail promise of lines 281-286: the cached lookup with the
fallback attached by catch. -/
def thumbnailP (r : ThumbRun) : SProm String :=
  scatch r.cached (fun tf => fallbackP r tf)

/-- requestThumbnail (lines 270-291): the race of the abort promise against
the thumbnail promise. -/
def requestThumbnail (r : ThumbRun) : SProm String :=
  race (rejAt String r.tAbort) (thumbnailP r)

/-- Whether fetchScreenshot is ever invoked during the run: only the then
callback of the fallback branch calls it, which runs exactly when the
cached lookup has failed and the inner race settled resolved. -/
def captureRequested (r : ThumbRun) : Bool :=
  match r.cached with
  | some (.rej tf) =>
    match delayTo tf (race (rejAt Unit r.tAbort) (loadedP r)) with
    | some (.res _ _) => true
    | _ => false
  | _ => false

/-- The state edit the caller attaches at lines 233-234: only a resolution
of requestThumbnail produces an edit (WebView.onThumbnailChanged); a
rejection has no handler and is silently absorbed. -/
def thumbnailEdit (r : ThumbRun) : Option String :=
  match requestThumbnail r with
  | some (.res _ b) => some b
  | _ => none

/-- The effect of the whole acquisition on the owning ViewState: when the
acquisition resolves, WebView.onThumbnailChanged sets the thumbnail field
to the obtained handle; otherwise the state is untouched. -/
def applyThumbnail (r : ThumbRun) (s : ViewState) : ViewState :=
  match thumbnailEdit r with
  | some b => { s with thumbnail := some b }
  | none => s

/-- Holds when t is strictly before the optional event time (vacuously when
the event never fires). -/
def beforeOpt (t : Nat) : Option Nat → Prop
  | none => True
  | some u => t < u

instance (t : Nat) (o : Option Nat) : Decidable (beforeOpt t o) :=
  match o with
  | none => isTrue trivial
  | some u => inferInstanceAs (Decidable (t < u))

/-- Holds when t is strictly before the settlement of the promise
(vacuously when it never settles). -/
def beforeSettle (t : Nat) : SProm α → Prop
  | none => True
  | some c => t < c.time

instance (t : Nat) (p : SProm α) : Decidable (beforeSettle t p) :=
  match p with
  | none => isTrue trivial
  | some c => inferInstanceAs (Decidable (t < c.time))

/-
  Rendering order of WebViewBox.render, web-view.js lines 304-315.
-/

/-- Lexicographic comparison of character lists by code point: the string
order the sort by id uses, written out executably. -/
def charListLe : List Char → List Char → Bool
  | [], _ => true
  | _ :: _, [] => false
  | a :: as, b :: bs =>
    if a.val.toNat < b.val.toNat then true
    else if b.val.toNat < a.val.toNat then false
    else charListLe as bs

/-- charListLe is total. -/
theorem charListLe_total : ∀ a b : List Char,
    charListLe a b = true ∨ charListLe b a = true
  | [], _ => Or.inl rfl
  | _ :: _, [] => Or.inr rfl
  | a :: as, b :: bs => by
    by_cases h1 : a.val.toNat < b.val.toNat
    · left
      simp [charListLe, h1]
    · by_cases h2 : b.val.toNat < a.val.toNat
      · right
        simp [charListLe, h1, h2]
      · rcases charListLe_total as bs with h | h
        · left
          simp [charListLe, h1, h2, h]
        · right
          simp [charListLe, h1, h2, h]

/-- charListLe is transitive. -/
theorem charListLe_trans : ∀ a b c : List Char,
    charListLe a b = true → charListLe b c = true → charListLe a c = true
  | [], _, _, _, _ => rfl
  | _ :: _, [], _, h, _ => by simp [charListLe] at h
  | _ :: _, _ :: _, [], _, h2 => by simp [charListLe] at h2
  | a :: as, b :: bs, c :: cs, h1, h2 => by
    by_cases hab : a.val.toNat < b.val.toNat <;>
      by_cases hba : b.val.toNat < a.val.toNat <;>
      by_cases hbc : b.val.toNat < c.val.toNat <;>
      by_cases hcb : c.val.toNat < b.val.toNat <;>
      simp_all [charListLe] <;>
      first
        | omega
        | (constructor ; omega)
        | exact Or.inr ⟨by omega, charListLe_trans as bs cs h1 h2⟩

/-- charListLe is antisymmetric: mutual comparison forces equality. -/
theorem charListLe_antisymm : ∀ a b : List Char,
    charListLe a b = true → charListLe b a = true → a = b
  | [], [], _, _ => rfl
  | [], _ :: _, _, h2 => by simp [charListLe] at h2
  | _ :: _, [], h1, _ => by simp [charListLe] at h1
  | a :: as, b :: bs, h1, h2 => by
    by_cases hab : a.val.toNat < b.val.toNat <;>
      by_cases hba : b.val.toNat < a.val.toNat <;>
      simp_all [charListLe]
    · omega
    · have hv : a = b := Char.ext (UInt32.toNat.inj (by omega))
      exact ⟨hv, charListLe_antisymm as bs h1 h2⟩

/-- Strings with equal character data are equal. -/
theorem string_eq_of_data_eq {s t : String} (h : s.data = t.data) : s = t := by
  cases s
  cases t
  simp_all

/-- The comparison WebViewBox.render sorts by at line 311: items ordered
lexicographically by their id. -/
def viewIdLe (a b : ViewState) : Prop :=
  charListLe a.id.data b.id.data = true

instance : DecidableRel viewIdLe :=
  fun a b => inferInstanceAs (Decidable (charListLe a.id.data b.id.data = true))

instance : IsTotal ViewState viewIdLe :=
  ⟨fun a b => charListLe_total a.id.data b.id.data⟩

instance : IsTrans ViewState viewIdLe :=
  ⟨fun _ _ _ h1 h2 => charListLe_trans _ _ _ h1 h2⟩

/-- Mutual viewIdLe comparison forces equal ids. -/
theorem viewIdLe_antisymm_id {a b : ViewState} (h1 : viewIdLe a b)
    (h2 : viewIdLe b a) : a.id = b.id :=
  string_eq_of_data_eq (charListLe_antisymm _ _ h1 h2)

/-- The order in which WebViewBox.render mounts the content frames
(web-view.js line 311): the items sorted by id, a stable sort modelled by
insertion sort. -/
def mountOrder (items : List ViewState) : List ViewState :=
  List.insertionSort viewIdLe items

/- Theorems about the embedded program. -/

/-- Helper: a chain of zoomIn applications keeps the zoom at or below
ZOOM_MAX whenever it starts there. -/
theorem zoomIn_iter_le (s : ViewState) (h : s.zoom ≤ ZOOM_MAX) (n : Nat) :
    (zoomIn^[n] s).zoom ≤ ZOOM_MAX := by
  induction n with
  | zero => simpa using h
  | succ k _ih =>
    rw [Function.iterate_succ_apply']
    exact min_le_left _ _

/-- Helper: a chain of zoomOut applications keeps the zoom at or above
ZOOM_MIN whenever it starts there. -/
theorem zoomOut_iter_ge (s : ViewState) (h : ZOOM_MIN ≤ s.zoom) (n : Nat) :
    ZOOM_MIN ≤ (zoomOut^[n] s).zoom := by
  induction n with
  | zero => simpa using h
  | succ k _ih =>
    rw [Function.iterate_succ_apply']
    exact le_max_left _ _

/-- C3: for every ViewState s and clock reading now, startLoad yields
isLoading true, isConnecting true, readyState loading, startLoadingTime set
to the clock reading, and icons, thumbnail, title, securityState,
securityExtendedValidation, canGoBack and canGoForward cleared back to
their declared defaults, removing stale values of the prior page. -/
theorem claim_C3_startLoad (s : ViewState) (now : Int) :
    (startLoad now s).isLoading = true ∧
    (startLoad now s).isConnecting = true ∧
    (startLoad now s).readyState = some "loading" ∧
    (startLoad now s).startLoadingTime = now ∧
    (startLoad now s).icons = none ∧
    (startLoad now s).thumbnail = none ∧
    (startLoad now s).title = none ∧
    (startLoad now s).securityState = "insecure" ∧
    (startLoad now s).securityExtendedValidation = false ∧
    (startLoad now s).canGoBack = false ∧
    (startLoad now s).canGoForward = false := by
  simp [startLoad]

/-- C4: applying startLoad at time t1 and then endLoad at a later or equal
time t2 (the clock performance.now() is monotone) yields isLoading false,
isConnecting false, readyState loaded, and endLoadingTime at or after
startLoadingTime. -/
theorem claim_C4_start_then_end (s : ViewState) (t1 t2 : Int) (h : t1 ≤ t2) :
    (endLoad t2 (startLoad t1 s)).isLoading = false ∧
    (endLoad t2 (startLoad t1 s)).isConnecting = false ∧
    (endLoad t2 (startLoad t1 s)).readyState = some "loaded" ∧
    (endLoad t2 (startLoad t1 s)).startLoadingTime ≤
      (endLoad t2 (startLoad t1 s)).endLoadingTime := by
  refine ⟨rfl, rfl, rfl, ?_⟩
  simpa [startLoad, endLoad] using h

/-- Witness for C4 at a concrete state and clock readings. -/
theorem claim_C4_start_then_end_witness :
    (1 : Int) ≤ 2 ∧
    ((endLoad 2 (startLoad 1 (mkView "w"))).isLoading = false ∧
     (endLoad 2 (startLoad 1 (mkView "w"))).isConnecting = false ∧
     (endLoad 2 (startLoad 1 (mkView "w"))).readyState = some "loaded" ∧
     (endLoad 2 (startLoad 1 (mkView "w"))).startLoadingTime ≤
       (endLoad 2 (startLoad 1 (mkView "w"))).endLoadingTime) :=
  ⟨by decide, claim_C4_start_then_end (mkView "w") 1 2 (by decide)⟩

/-- C5 counterexample: changeProgress ignores its supplied argument and
stores the ambient clock reading instead.  At the connecting state below,
with supplied argument 5 and ambient clock 7, the result does not have
connectedTime equal to the supplied argument, refuting the claim that the
first-byte timestamp is the value passed in. -/
theorem claim_C5_counterexample :
    ¬ ((changeProgress 5 7 { mkView "w" with isConnecting := true }).isConnecting = false ∧
       (changeProgress 5 7 { mkView "w" with isConnecting := true }).connectedTime = 5) := by
  decide

/-- C5 amended: for every ViewState with isConnecting true, changeProgress
sets isConnecting false and sets connectedTime to the ambient clock reading
performance.now() taken at application time, ignoring the supplied
argument. -/
theorem claim_C5_changeProgress (arg now : Int) (s : ViewState)
    (h : s.isConnecting = true) :
    (changeProgress arg now s).isConnecting = false ∧
    (changeProgress arg now s).connectedTime = now := by
  simp [changeProgress, h]

/-- Witness for the amended C5 at a concrete connecting state. -/
theorem claim_C5_changeProgress_witness :
    ({ mkView "w" with isConnecting := true } : ViewState).isConnecting = true ∧
    ((changeProgress 5 7 { mkView "w" with isConnecting := true }).isConnecting = false ∧
     (changeProgress 5 7 { mkView "w" with isConnecting := true }).connectedTime = 7) :=
  ⟨by decide, claim_C5_changeProgress 5 7 { mkView "w" with isConnecting := true } (by decide)⟩

/-- C6: once isConnecting is false, changeProgress returns the state
unchanged whatever arguments it gets, so a second application after a
successful first one is a no-op. -/
theorem claim_C6_changeProgress_noop (arg now : Int) (s : ViewState)
    (h : s.isConnecting = false) :
    changeProgress arg now s = s := by
  simp [changeProgress, h]

/-- Witness for C6 at a concrete non-connecting state. -/
theorem claim_C6_changeProgress_noop_witness :
    (mkView "w").isConnecting = false ∧
    changeProgress 5 7 (mkView "w") = mkView "w" :=
  ⟨by decide, claim_C6_changeProgress_noop 5 7 (mkView "w") (by decide)⟩

/-- C7: starting from a zoom within the ZOOM_MIN to ZOOM_MAX range, every
chain of zoomIn applications stays at or below ZOOM_MAX and every chain of
zoomOut applications stays at or above ZOOM_MIN; zoomReset applied to any
state yields zoom exactly 1. -/
theorem claim_C7_zoom (s : ViewState) (n : Nat)
    (h1 : ZOOM_MIN ≤ s.zoom) (h2 : s.zoom ≤ ZOOM_MAX) :
    (zoomIn^[n] s).zoom ≤ ZOOM_MAX ∧
    ZOOM_MIN ≤ (zoomOut^[n] s).zoom ∧
    ∀ s2 : ViewState, (zoomReset s2).zoom = 1 :=
  ⟨zoomIn_iter_le s h2 n, zoomOut_iter_ge s h1 n, fun _ => rfl⟩

/-- Witness for C7 at a concrete state and chain length. -/
theorem claim_C7_zoom_witness :
    ZOOM_MIN ≤ (mkView "w").zoom ∧ (mkView "w").zoom ≤ ZOOM_MAX ∧
    ((zoomIn^[3] (mkView "w")).zoom ≤ ZOOM_MAX ∧
     ZOOM_MIN ≤ (zoomOut^[3] (mkView "w")).zoom ∧
     ∀ s2 : ViewState, (zoomReset s2).zoom = 1) :=
  ⟨by norm_num [ZOOM_MIN, mkView], by norm_num [ZOOM_MAX, mkView],
   claim_C7_zoom (mkView "w") 3 (by norm_num [ZOOM_MIN, mkView])
     (by norm_num [ZOOM_MAX, mkView])⟩

/-- C8: the persistent projection is idempotent: projecting twice equals
projecting once. -/
theorem claim_C8_persistent_idem (s : ViewState) :
    persistent (persistent s) = persistent s := rfl

/-- C10: the persistent projection resets each transient field to its
declared default rather than removing it: securityState becomes insecure,
isLoading, isConnecting, isDark, securityExtendedValidation, canGoBack,
canGoForward become false, the three timestamps become -1, and thumbnail,
readyState, title, backgroundColor, foregroundColor become unset, while
id, userInput, zoom, uri, icons, meta, isFocused, isActive, isSelected,
isPinned and contentOverflows are left unchanged. -/
theorem claim_C10_persistent_fields (s : ViewState) :
    (persistent s).securityState = "insecure" ∧
    (persistent s).isLoading = false ∧
    (persistent s).isConnecting = false ∧
    (persistent s).isDark = false ∧
    (persistent s).securityExtendedValidation = false ∧
    (persistent s).canGoBack = false ∧
    (persistent s).canGoForward = false ∧
    (persistent s).startLoadingTime = -1 ∧
    (persistent s).connectedTime = -1 ∧
    (persistent s).endLoadingTime = -1 ∧
    (persistent s).thumbnail = none ∧
    (persistent s).readyState = none ∧
    (persistent s).title = none ∧
    (persistent s).backgroundColor = none ∧
    (persistent s).foregroundColor = none ∧
    (persistent s).id = s.id ∧
    (persistent s).userInput = s.userInput ∧
    (persistent s).zoom = s.zoom ∧
    (persistent s).uri = s.uri ∧
    (persistent s).icons = s.icons ∧
    (persistent s).meta = s.meta ∧
    (persistent s).isFocused = s.isFocused ∧
    (persistent s).isActive = s.isActive ∧
    (persistent s).isSelected = s.isSelected ∧
    (persistent s).isPinned = s.isPinned ∧
    (persistent s).contentOverflows = s.contentOverflows := by
  simp [persistent]

/-- C1: in every run of the thumbnail acquisition in which the persisted
thumbnail lookup resolves successfully before the locationchange abort
event, the acquisition resolves with exactly the cached image handle and
the screenshot capture is never invoked. -/
theorem claim_C1_cached_first (r : ThumbRun) (tc : Nat) (b : String)
    (hc : r.cached = some (.res tc b)) (ha : beforeOpt tc r.tAbort) :
    requestThumbnail r = some (.res tc b) ∧ captureRequested r = false := by
  constructor
  · unfold requestThumbnail thumbnailP
    rw [hc]
    cases hA : r.tAbort with
    | none => simp [scatch, rejAt, race]
    | some ta =>
      rw [hA] at ha
      have h1 : tc < ta := ha
      simp [scatch, rejAt, race, Settled.time, h1]
  · unfold captureRequested
    rw [hc]

/-- Witness for C1: a run with the cached lookup resolving at time 3,
loadend at time 7 and the abort event at time 10. -/
theorem claim_C1_cached_first_witness :
    (⟨some 10, some 7, some (.res 3 "B"), 1, some "C"⟩ : ThumbRun).cached
      = some (.res 3 "B") ∧
    beforeOpt 3 (⟨some 10, some 7, some (.res 3 "B"), 1, some "C"⟩ : ThumbRun).tAbort ∧
    (requestThumbnail ⟨some 10, some 7, some (.res 3 "B"), 1, some "C"⟩
       = some (.res 3 "B") ∧
     captureRequested ⟨some 10, some 7, some (.res 3 "B"), 1, some "C"⟩ = false) :=
  ⟨rfl, by decide, claim_C1_cached_first _ 3 "B" rfl (by decide)⟩

/-- C2: in every run of the thumbnail acquisition in which the
locationchange abort event fires strictly before the persisted lookup
settles and strictly before the loadend event, the acquisition rejects at
the abort time (it is cancelled), the screenshot capture is never
requested, the rejection produces no edit, and the owning ViewState is
left entirely unchanged. -/
theorem claim_C2_abort_first (r : ThumbRun) (ta : Nat) (s : ViewState)
    (hA : r.tAbort = some ta)
    (hc : beforeSettle ta r.cached)
    (hl : beforeOpt ta r.tLoad) :
    requestThumbnail r = some (.rej ta) ∧
    captureRequested r = false ∧
    thumbnailEdit r = none ∧
    applyThumbnail r s = s := by
  have hres : requestThumbnail r = some (.rej ta) := by
    unfold requestThumbnail thumbnailP
    rw [hA]
    cases hC : r.cached with
    | none => simp [scatch, rejAt, race]
    | some c =>
      rw [hC] at hc
      cases c with
      | res t v =>
        have h1 : ¬ t < ta := Nat.not_lt.mpr (Nat.le_of_lt hc)
        simp [scatch, rejAt, race, Settled.time, h1]
      | rej tf =>
        have h1 : ta < tf := hc
        unfold fallbackP
        rw [hA]
        cases hL : r.tLoad with
        | none =>
          have h2 : ¬ max tf ta < ta := by omega
          simp [scatch, sthen, loadedP, rejAt, race, delayTo, Settled.time, hL, h2]
        | some tl =>
          rw [hL] at hl
          have h2 : ¬ tl < ta := Nat.not_lt.mpr (Nat.le_of_lt hl)
          have h3 : ¬ max tf ta < ta := by omega
          simp [scatch, sthen, loadedP, rejAt, race, delayTo, Settled.time, hL, h2, h3]
  have hcap : captureRequested r = false := by
    unfold captureRequested
    cases hC : r.cached with
    | none => rfl
    | some c =>
      rw [hC] at hc
      cases c with
      | res t v => rfl
      | rej tf =>
        have h1 : ta < tf := hc
        rw [hA]
        cases hL : r.tLoad with
        | none => simp [loadedP, rejAt, race, delayTo, Settled.time, hL]
        | some tl =>
          rw [hL] at hl
          have h2 : ¬ tl < ta := Nat.not_lt.mpr (Nat.le_of_lt hl)
          simp [loadedP, rejAt, race, delayTo, Settled.time, hL, h2]
  refine ⟨hres, hcap, ?_, ?_⟩
  · simp [thumbnailEdit, hres]
  · simp [applyThumbnail, thumbnailEdit, hres]

/-- Witness for C2: a run with the abort event at time 1, the cached
lookup failing at time 2 and loadend at time 5, applied to a concrete
ViewState. -/
theorem claim_C2_abort_first_witness :
    (⟨some 1, some 5, some (.rej 2), 1, some "C"⟩ : ThumbRun).tAbort = some 1 ∧
    beforeSettle 1 (⟨some 1, some 5, some (.rej 2), 1, some "C"⟩ : ThumbRun).cached ∧
    beforeOpt 1 (⟨some 1, some 5, some (.rej 2), 1, some "C"⟩ : ThumbRun).tLoad ∧
    (requestThumbnail ⟨some 1, some 5, some (.rej 2), 1, some "C"⟩ = some (.rej 1) ∧
     captureRequested ⟨some 1, some 5, some (.rej 2), 1, some "C"⟩ = false ∧
     thumbnailEdit ⟨some 1, some 5, some (.rej 2), 1, some "C"⟩ = none ∧
     applyThumbnail ⟨some 1, some 5, some (.rej 2), 1, some "C"⟩ (mkView "w")
       = mkView "w") :=
  ⟨rfl, by decide, by decide,
   claim_C2_abort_first _ 1 (mkView "w") rfl (by decide) (by decide)⟩

/-- C9: the mount order of a view collection is the sort of its items by
id: it is a permutation of the items, it is sorted by id, it does not
depend on the insertion order (any permutation of items with distinct ids
mounts identically), and items with ids b, a, c mount in the order
a, b, c. -/
theorem claim_C9_mount_order (l1 l2 : List ViewState)
    (hperm : l1.Perm l2) (hnd : (l1.map ViewState.id).Nodup) :
    (mountOrder l1).Perm l1 ∧
    List.Sorted viewIdLe (mountOrder l1) ∧
    mountOrder l1 = mountOrder l2 ∧
    (mountOrder [mkView "b", mkView "a", mkView "c"]).map ViewState.id
      = ["a", "b", "c"] := by
  refine ⟨List.perm_insertionSort _ _, List.sorted_insertionSort _ _, ?_, by decide⟩
  have hp : (mountOrder l1).Perm (mountOrder l2) :=
    (List.perm_insertionSort viewIdLe l1).trans
      (hperm.trans (List.perm_insertionSort viewIdLe l2).symm)
  have hnd2 : (l2.map ViewState.id).Nodup := (hperm.map ViewState.id).nodup_iff.mp hnd
  have key : ∀ l : List ViewState, (l.map ViewState.id).Nodup →
      List.Pairwise (fun a b : ViewState => viewIdLe a b ∧ a.id ≠ b.id)
        (mountOrder l) := by
    intro l hl
    have hs : List.Pairwise viewIdLe (mountOrder l) :=
      List.sorted_insertionSort viewIdLe l
    have hmnd : ((mountOrder l).map ViewState.id).Nodup :=
      ((List.perm_insertionSort viewIdLe l).map ViewState.id).nodup_iff.mpr hl
    have hne : List.Pairwise (fun a b : ViewState => a.id ≠ b.id) (mountOrder l) :=
      List.pairwise_map.mp hmnd
    exact hs.and hne
  haveI : IsAntisymm ViewState (fun a b : ViewState => viewIdLe a b ∧ a.id ≠ b.id) :=
    ⟨fun a b h1 h2 => absurd (viewIdLe_antisymm_id h1.1 h2.1) h1.2⟩
  exact List.eq_of_perm_of_sorted hp (key l1 hnd) (key l2 hnd2)

/-- Witness for C9: two insertion orders of the same three views with
distinct ids b, a, c. -/
theorem claim_C9_mount_order_witness :
    ([mkView "b", mkView "a", mkView "c"] : List ViewState).Perm
      [mkView "c", mkView "b", mkView "a"] ∧
    (([mkView "b", mkView "a", mkView "c"] : List ViewState).map ViewState.id).Nodup ∧
    ((mountOrder [mkView "b", mkView "a", mkView "c"]).Perm
       [mkView "b", mkView "a", mkView "c"] ∧
     List.Sorted viewIdLe (mountOrder [mkView "b", mkView "a", mkView "c"]) ∧
     mountOrder [mkView "b", mkView "a", mkView "c"]
       = mountOrder [mkView "c", mkView "b", mkView "a"] ∧
     (mountOrder [mkView "b", mkView "a", mkView "c"]).map ViewState.id
       = ["a", "b", "c"]) :=
  ⟨by decide, by decide,
   claim_C9_mount_order [mkView "b", mkView "a", mkView "c"]
     [mkView "c", mkView "b", mkView "a"] (by decide) (by decide)⟩

end Browser
